import Mathlib

/-!
Shallow embedding of the robot-factory application in `src/Tmps1.py`.

The embedding covers the parts of the program the verified properties talk
about: the Python dictionary operations used for a robot's component map,
the `Robot` entity, the part factories / builders / director / robot
factories of the construction pipeline, the `draw_robot` rendering routine
(as a pure function from an entity to the ordered list of canvas primitives
it emits after clearing the canvas), the application-level action handlers
(`create_humanoid_robot`, `create_heavy_robot`, `clone_robot`) over an
explicit application state, a small store model of Python object references
used to reason about `copy.deepcopy` independence, and the
`SingletonLogger.__new__` class-level state machine.
-/

/- ---------------- Python dictionaries restricted to str keys/values ---------------- -/

/-- A Python `dict` from strings to strings, as an insertion-ordered
association list with unique keys (the representation used by
`robot.components`). -/
abbrev AttrMap := List (String × String)

/-- Exact-key lookup in an association list, mirroring Python dictionary
lookup. -/
def lookupKey : AttrMap → String → Option String
  | [], _ => none
  | (k1, v1) :: rest, k => if k1 = k then some v1 else lookupKey rest k

/-- Python `m.get(k, d)`: the stored value when the key is present, the
default `d` otherwise. -/
def dictGet (m : AttrMap) (k d : String) : String :=
  (lookupKey m k).getD d

/-- Python `m[k] = v`: overwrite in place when the key is present (keeping
its position), append otherwise. -/
def dictInsert : AttrMap → String → String → AttrMap
  | [], k, v => [(k, v)]
  | (k1, v1) :: rest, k, v =>
      if k1 = k then (k, v) :: rest else (k1, v1) :: dictInsert rest k v

/- ---------------- Entities ---------------- -/

/-- The variant tag of a robot object. `HumanoidRobot` and `HeavyRobot` are
the two concrete subclasses of `Robot` in the source; `unknown` stands for
any object reaching `draw_robot` that is an instance of neither (the final
`else` of the `isinstance` dispatch). -/
inductive Variant
  | humanoid
  | heavy
  | unknown
deriving DecidableEq

/-- A robot entity: `Robot.__init__` stores a name and an initially empty
components dictionary; the variant records which concrete subclass the
object belongs to. -/
structure Robot where
  name : String
  variant : Variant
  components : AttrMap
deriving DecidableEq

/-- Python `s.lower()` on the ASCII strings compared by the renderer:
lowercase every character. -/
def pyLower (s : String) : String :=
  String.mk (s.data.map Char.toLower)

/-- Python `str.isspace()` on one character: true exactly for CPython's
Unicode whitespace set (Zs/Zl/Zp categories plus bidirectional WS/B/S) —
U+0009-U+000D, U+001C-U+001F, space, U+0085, U+00A0, U+1680,
U+2000-U+200A, U+2028, U+2029, U+202F, U+205F, U+3000. -/
def pyIsSpace (c : Char) : Bool :=
  let n := c.toNat
  (9 ≤ n && n ≤ 13) || (28 ≤ n && n ≤ 31) || n == 32 || n == 133 || n == 160 ||
  n == 5760 || (8192 ≤ n && n ≤ 8202) || n == 8232 || n == 8233 || n == 8239 ||
  n == 8287 || n == 12288

/-- Python `s.strip()` with no argument: remove the characters satisfying
`pyIsSpace` from both ends of the string. -/
def pyStrip (s : String) : String :=
  String.mk (((s.data.dropWhile pyIsSpace).reverse.dropWhile pyIsSpace).reverse)

/- ---------------- Drawing primitives ---------------- -/

/-- The `style` argument of a `canvas.create_arc` call: `tk.ARC` or
`tk.CHORD` (when omitted, `Prim.arc` below records `none`). -/
inductive ArcStyle
  | arc
  | chord
deriving DecidableEq

/-- One tkinter canvas drawing instruction, recording exactly the arguments
passed at the call site; an `Option` field is `none` when the source call
omits that keyword argument. Fonts are (family, size, bold?). -/
inductive Prim
  | oval (x1 y1 x2 y2 : Nat) (fill outline : Option String) (width : Option Nat)
  | rect (x1 y1 x2 y2 : Nat) (fill outline : Option String) (width : Option Nat)
  | line (x1 y1 x2 y2 : Nat) (fill : Option String) (width : Option Nat)
      (dash : Option (Nat × Nat))
  | arc (x1 y1 x2 y2 start extent : Nat) (style : Option ArcStyle)
      (fill outline : Option String) (width : Option Nat)
  | text (x y : Nat) (s : String) (font : Option (String × Nat × Bool))
      (fill : Option String)
deriving DecidableEq

/- ---------------- Render engine: RobotFactoryApp.draw_robot ---------------- -/

/-- Humanoid head region (lines 252-258): square head with seam line when
`head_style` lowercases to "square", otherwise oval head with highlight
arc. -/
def humanoidHead (a : AttrMap) : List Prim :=
  if pyLower (dictGet a "head_style" "Oval") = "square" then
    [.rect 170 40 230 100 (some "peachpuff") (some "black") (some 2),
     .line 230 40 230 100 (some "gray") (some 2) (some (2, 2))]
  else
    [.oval 170 40 230 100 (some "peachpuff") (some "black") (some 2),
     .arc 175 45 225 95 30 120 (some .arc) none (some "white") (some 1)]

/-- Humanoid eyes region (lines 259-264): white eyeballs with irises filled
by the `eye_color` value (used verbatim, default "black"). -/
def humanoidEyes (a : AttrMap) : List Prim :=
  let eye_color := dictGet a "eye_color" "black"
  [.oval 185 60 195 70 (some "white") (some "black") none,
   .oval 188 63 192 67 (some eye_color) (some eye_color) none,
   .oval 205 60 215 70 (some "white") (some "black") none,
   .oval 208 63 212 67 (some eye_color) (some eye_color) none]

/-- Humanoid mouth (line 266): a red chord arc, drawn unconditionally. -/
def humanoidMouth : List Prim :=
  [.arc 180 70 220 90 200 140 (some .chord) (some "red") none none]

/-- Humanoid torso region (lines 267-274). -/
def humanoidTorso (a : AttrMap) : List Prim :=
  if pyLower (dictGet a "torso_style" "Standard") = "muscular" then
    [.rect 175 100 215 170 (some "lightblue") (some "black") (some 4),
     .line 175 135 215 135 (some "blue") (some 2) none,
     .line 195 100 195 170 (some "blue") (some 2) none]
  else
    [.rect 185 100 215 170 (some "skyblue") (some "black") (some 2)]

/-- Humanoid arms region (lines 275-286). -/
def humanoidArms (a : AttrMap) : List Prim :=
  if pyLower (dictGet a "arm_style" "Standard") = "hydraulic" then
    [.line 185 110 150 140 (some "black") (some 5) none,
     .oval 145 135 155 145 (some "gray") (some "black") none,
     .line 215 110 250 140 (some "black") (some 5) none,
     .oval 245 135 255 145 (some "gray") (some "black") none]
  else
    [.line 185 110 150 140 (some "black") (some 3) none,
     .line 215 110 250 140 (some "black") (some 3) none,
     .oval 145 135 155 145 (some "black") none none,
     .oval 245 135 255 145 (some "black") none none]

/-- Humanoid legs region (lines 287-297). -/
def humanoidLegs (a : AttrMap) : List Prim :=
  if pyLower (dictGet a "legs" "Standard") = "wide" then
    [.rect 180 170 200 220 (some "black") none none,
     .rect 200 170 220 220 (some "black") none none,
     .oval 190 215 200 225 (some "gray") (some "black") none,
     .oval 210 215 220 225 (some "gray") (some "black") none]
  else
    [.line 190 170 190 220 (some "black") (some 3) none,
     .line 210 170 210 220 (some "black") (some 3) none,
     .oval 185 215 195 225 (some "black") none none,
     .oval 205 215 215 225 (some "black") none none]

/-- The stalk-and-bulb antenna primitives; the same three calls appear
verbatim in both the humanoid branch (lines 300-302) and the heavy branch
(lines 346-348). -/
def antennaPrims : List Prim :=
  [.line 200 40 200 15 (some "green") (some 2) none,
   .oval 195 10 205 20 (some "green") (some "black") none,
   .oval 197 12 203 18 (some "lightgreen") (some "green") none]

/-- Antenna region (lines 298-302 and 344-348): drawn unless `antenna`
lowercases to "none" (the default when absent). -/
def drawAntenna (a : AttrMap) : List Prim :=
  if pyLower (dictGet a "antenna" "None") ≠ "none" then antennaPrims else []

/-- Heavy head rivet dots (lines 313-314): `for x in range(160, 240, 20)`,
so x takes the values 160, 180, 200, 220. -/
def heavyRivets : List Prim :=
  [.oval 160 45 170 55 (some "black") none none,
   .oval 180 45 190 55 (some "black") none none,
   .oval 200 45 210 55 (some "black") none none,
   .oval 220 45 230 55 (some "black") none none]

/-- Heavy head region (lines 306-314): dome or rectangle, always followed
by the rivet row. -/
def heavyHead (a : AttrMap) : List Prim :=
  (if pyLower (dictGet a "head_style" "Rectangle") = "dome" then
    [.arc 150 40 250 90 0 180 none (some "dimgray") (some "black") (some 3),
     .line 150 65 250 65 (some "black") (some 2) none]
  else
    [.rect 150 40 250 90 (some "dimgray") (some "black") (some 3)]) ++ heavyRivets

/-- Heavy torso region (lines 315-322). -/
def heavyTorso (a : AttrMap) : List Prim :=
  if pyLower (dictGet a "torso_style" "Standard") = "armored" then
    [.rect 140 90 260 180 (some "gray") (some "black") (some 4),
     .line 140 130 260 130 (some "black") (some 2) none,
     .line 200 90 200 180 (some "black") (some 2) none]
  else
    [.rect 140 90 260 180 (some "gray") (some "black") (some 3)]

/-- Heavy arms region (lines 323-334). -/
def heavyArms (a : AttrMap) : List Prim :=
  if pyLower (dictGet a "arm_style" "Standard") = "robotic" then
    [.rect 110 90 140 150 (some "dimgray") (some "black") (some 3),
     .rect 260 90 290 150 (some "dimgray") (some "black") (some 3),
     .line 125 90 125 70 (some "black") (some 2) none,
     .line 275 90 275 70 (some "black") (some 2) none,
     .oval 120 70 130 80 (some "black") (some "gray") none,
     .oval 270 70 280 80 (some "black") (some "gray") none]
  else
    [.rect 110 90 140 150 (some "dimgray") (some "black") (some 3),
     .rect 260 90 290 150 (some "dimgray") (some "black") (some 3)]

/-- Heavy legs region (lines 335-343). -/
def heavyLegs (a : AttrMap) : List Prim :=
  if pyLower (dictGet a "legs" "Standard") = "wide" then
    [.rect 160 180 190 260 (some "black") (some "black") none,
     .rect 210 180 240 260 (some "black") (some "black") none,
     .oval 170 255 180 265 (some "gray") (some "black") none,
     .oval 220 255 230 265 (some "gray") (some "black") none]
  else
    [.rect 170 180 190 260 (some "black") (some "black") none,
     .rect 210 180 230 260 (some "black") (some "black") none]

/-- RobotFactoryApp.draw_robot (lines 248-351) as a pure function: the
ordered sequence of canvas primitives emitted for a robot after
`canvas.delete("all")`. Dispatch is on the concrete class of the robot
(`isinstance`), with a diagnostic text label for any other object. -/
def draw_robot (robot : Robot) : List Prim :=
  match robot.variant with
  | .humanoid =>
      humanoidHead robot.components ++ humanoidEyes robot.components ++
      humanoidMouth ++ humanoidTorso robot.components ++
      humanoidArms robot.components ++ humanoidLegs robot.components ++
      drawAntenna robot.components ++
      [.text 200 20 robot.name (some ("Helvetica", 16, true)) (some "darkblue")]
  | .heavy =>
      heavyHead robot.components ++ heavyTorso robot.components ++
      heavyArms robot.components ++ heavyLegs robot.components ++
      drawAntenna robot.components ++
      [.text 200 20 robot.name (some ("Helvetica", 16, true)) (some "darkred")]
  | .unknown =>
      [.text 200 200 "Unknown Robot Type" (some ("Helvetica", 16, false)) none]

/- ---------------- Construction pipeline ---------------- -/

/-- The RobotPartFactory interface: three part-label providers (lines
53-64); each concrete factory returns constant strings. -/
structure RobotPartFactory where
  create_head : String
  create_torso : String
  create_limbs : String

/-- HumanoidPartFactory (lines 67-75). -/
def HumanoidPartFactory : RobotPartFactory :=
  ⟨"Smart Face", "Sleek Body", "Agile Limbs"⟩

/-- HeavyPartFactory (lines 78-86). -/
def HeavyPartFactory : RobotPartFactory :=
  ⟨"Armored Head", "Reinforced Frame", "Robust Limbs"⟩

/-- The state of a concrete RobotBuilder: the in-progress robot and the
part factory it draws labels from. The two concrete builder classes (lines
108-149) differ only in the robot they start from and the part factory they
instantiate; their build methods are textually identical up to those. -/
structure RobotBuilderState where
  robot : Robot
  part_factory : RobotPartFactory

/-- HumanoidRobotBuilder.__init__ (lines 109-112): a fresh HumanoidRobot
with the given name and the humanoid part factory. -/
def HumanoidRobotBuilder (name : String) : RobotBuilderState :=
  ⟨⟨name, .humanoid, []⟩, HumanoidPartFactory⟩

/-- HeavyRobotBuilder.__init__ (lines 131-134). -/
def HeavyRobotBuilder (name : String) : RobotBuilderState :=
  ⟨⟨name, .heavy, []⟩, HeavyPartFactory⟩

/-- build_head: store the factory's head label under key "head". -/
def build_head (b : RobotBuilderState) : RobotBuilderState :=
  { b with robot := { b.robot with
      components := dictInsert b.robot.components "head" b.part_factory.create_head } }

/-- build_torso: store the factory's torso label under key "torso". -/
def build_torso (b : RobotBuilderState) : RobotBuilderState :=
  { b with robot := { b.robot with
      components := dictInsert b.robot.components "torso" b.part_factory.create_torso } }

/-- build_limbs: store the factory's limbs label under key "limbs". -/
def build_limbs (b : RobotBuilderState) : RobotBuilderState :=
  { b with robot := { b.robot with
      components := dictInsert b.robot.components "limbs" b.part_factory.create_limbs } }

/-- get_robot: return the robot built so far. -/
def get_robot (b : RobotBuilderState) : Robot :=
  b.robot

/-- RobotDirector.construct_robot (lines 157-161): build_head, build_torso,
build_limbs in that fixed order, then get_robot. -/
def RobotDirector.construct_robot (b : RobotBuilderState) : Robot :=
  get_robot (build_limbs (build_torso (build_head b)))

/-- HumanoidRobotFactory.create_robot (lines 172-176): new humanoid
builder, wrapped in a director, fully constructed. -/
def HumanoidRobotFactory.create_robot (name : String) : Robot :=
  RobotDirector.construct_robot (HumanoidRobotBuilder name)

/-- HeavyRobotFactory.create_robot (lines 180-184). -/
def HeavyRobotFactory.create_robot (name : String) : Robot :=
  RobotDirector.construct_robot (HeavyRobotBuilder name)

/- ---------------- Application state and action handlers ---------------- -/

/-- An ASCII single-quote character, used by Python repr of strings. -/
def singleQuote : String := String.singleton (Char.ofNat 39)

/-- Python str() of a string-to-string dict, e.g.
`\x7b'head': 'Smart Face'\x7d`. -/
def pyDictStr (m : AttrMap) : String :=
  "\x7b" ++
    String.intercalate ", "
      (m.map fun kv =>
        singleQuote ++ kv.1 ++ singleQuote ++ ": " ++
        singleQuote ++ kv.2 ++ singleQuote) ++
  "\x7d"

/-- Robot.__str__ (lines 37-38): name, colon, components dict. -/
def robotStr (r : Robot) : String :=
  r.name ++ ": " ++ pyDictStr r.components

/-- SingletonLogger.log formatting (line 18): the "[LOG]: " prefixed
message delivered to the sinks. -/
def logLine (m : String) : String :=
  "[LOG]: " ++ m

/-- The mutable state of RobotFactoryApp that the verified handlers touch:
the entity collection `robots`, the last-created entity, and the ordered
list of event strings emitted through the SingletonLogger during the
handlers (widget layout is not modeled). -/
structure AppState where
  robots : List Robot
  last_robot : Option Robot
  log : List String
deriving DecidableEq

/-- RobotFactoryApp.create_humanoid_robot (lines 353-360). The name is
`entry.strip()` (via `pyStrip`), or `Humanoid-<len(robots)+1>` when that is
empty (Python `or` on the falsy empty string). The log entries are the complete
trace emitted through the SingletonLogger during this handler, in order:
the factory's "creating" event, the builder and director initialization
events, the three build-step events, and the handler's own "created"
event. -/
def RobotFactoryApp.create_humanoid_robot (s : AppState) (entry : String) : AppState :=
  let name :=
    if pyStrip entry = "" then "Humanoid-" ++ toString (s.robots.length + 1)
    else pyStrip entry
  let robot := HumanoidRobotFactory.create_robot name
  { robots := s.robots ++ [robot],
    last_robot := some robot,
    log := s.log ++
      [logLine ("Creating Humanoid Robot: " ++ name),
       logLine "HumanoidRobotBuilder initialized",
       logLine "RobotDirector initialized",
       logLine "Built humanoid head",
       logLine "Built humanoid torso",
       logLine "Built humanoid limbs",
       logLine ("Created humanoid robot: " ++ robotStr robot)] }

/-- RobotFactoryApp.create_heavy_robot (lines 362-369), the heavy analogue
of `RobotFactoryApp.create_humanoid_robot`. -/
def RobotFactoryApp.create_heavy_robot (s : AppState) (entry : String) : AppState :=
  let name :=
    if pyStrip entry = "" then "Heavy-" ++ toString (s.robots.length + 1)
    else pyStrip entry
  let robot := HeavyRobotFactory.create_robot name
  { robots := s.robots ++ [robot],
    last_robot := some robot,
    log := s.log ++
      [logLine ("Creating Heavy Robot: " ++ name),
       logLine "HeavyRobotBuilder initialized",
       logLine "RobotDirector initialized",
       logLine "Built heavy robot head",
       logLine "Built heavy robot torso",
       logLine "Built heavy robot limbs",
       logLine ("Created heavy robot: " ++ robotStr robot)] }

/-- RobotFactoryApp.clone_robot (lines 371-382) at the level of entity
values: when a last robot exists, append a copy renamed with the "_clone"
suffix and make it the last robot (one "Cloned robot" event); otherwise
leave robots and last_robot untouched and emit the single "No robot to
clone." event. Sharing between the original and the copy is analyzed
separately with the reference-store model below. -/
def RobotFactoryApp.clone_robot (s : AppState) : AppState :=
  match s.last_robot with
  | some last =>
      let new_robot := { last with name := last.name ++ "_clone" }
      { robots := s.robots ++ [new_robot],
        last_robot := some new_robot,
        log := s.log ++ [logLine ("Cloned robot: " ++ robotStr new_robot)] }
  | none => { s with log := s.log ++ [logLine "No robot to clone."] }

/- ---------------- Reference-store model of deepcopy cloning ---------------- -/

/-- A robot object whose components dictionary lives in a shared store:
`compRef` is the Python object reference of the dict. This view makes the
aliasing behavior of `copy.deepcopy` expressible. -/
structure StoredRobot where
  name : String
  variant : Variant
  compRef : Nat
deriving DecidableEq

/-- The store of component dictionaries, indexed by reference. -/
structure Store where
  maps : List AttrMap
deriving DecidableEq

/-- Dereference a components dictionary. -/
def Store.read (st : Store) (r : Nat) : AttrMap :=
  (st.maps[r]?).getD []

/-- Overwrite the dictionary behind a reference. -/
def Store.write (st : Store) (r : Nat) (m : AttrMap) : Store :=
  ⟨st.maps.set r m⟩

/-- Allocate a fresh dictionary, returning its reference. -/
def Store.alloc (st : Store) (m : AttrMap) : Store × Nat :=
  (⟨st.maps ++ [m]⟩, st.maps.length)

/-- Robot.clone (lines 34-35), `copy.deepcopy(self)`: same name and
variant, and a freshly allocated copy of the components dictionary (deep
copy shares no storage with the original). -/
def StoredRobot.clone (e : StoredRobot) (st : Store) : Store × StoredRobot :=
  let p := st.alloc (st.read e.compRef)
  (p.1, { e with compRef := p.2 })

/-- The clone step of RobotFactoryApp.clone_robot (lines 373-374):
`new_robot = self.last_robot.clone()` followed by
`new_robot.name = f"\x7bnew_robot.name\x7d_clone"`. -/
def cloneStoredRobot (st : Store) (e : StoredRobot) : Store × StoredRobot :=
  let p := e.clone st
  (p.1, { p.2 with name := p.2.name ++ "_clone" })

/-- A post-clone attribute edit, `robot.components[k] = v` (the
apply_changes writes, lines 446-452), performed in place on the robot's
dictionary. -/
def setComponent (st : Store) (e : StoredRobot) (k v : String) : Store :=
  st.write e.compRef (dictInsert (st.read e.compRef) k v)

/- ---------------- SingletonLogger class state ---------------- -/

/-- A SingletonLogger instance as its Python object identity paired with
its `gui_callback` attribute; the callback itself is opaque to the model,
so it is an arbitrary type `α` (`none` models passing no callback). -/
abbrev LoggerInstance (α : Type) := Nat × Option α

/-- SingletonLogger.__new__ (lines 11-15) acting on the class attribute
`_instance`: when it is None, allocate a fresh instance (with identity
`freshId`) and bind `gui_callback` on it; otherwise return the stored
instance unchanged, ignoring the `gui_callback` argument. Returns the new
class state and the instance handed back to the caller. -/
def SingletonLogger.new {α : Type} (inst : Option (LoggerInstance α))
    (freshId : Nat) (gui_callback : Option α) :
    Option (LoggerInstance α) × LoggerInstance α :=
  match inst with
  | none => (some (freshId, gui_callback), (freshId, gui_callback))
  | some i => (some i, i)

/-- The style values that select the non-default branch of each
attribute-keyed region renderer, per variant (the renderer's documented
enumerated "on" values); every other value falls to the `else` branch. The
`eye_color` and `antenna` keys are deliberately absent: `eye_color` is used
verbatim as a fill and `antenna` draws for every value other than
case-insensitive "none". -/
def styleTriggers : Variant → String → List String
  | .humanoid, "head_style" => ["square"]
  | .humanoid, "torso_style" => ["muscular"]
  | .humanoid, "arm_style" => ["hydraulic"]
  | .humanoid, "legs" => ["wide"]
  | .heavy, "head_style" => ["dome"]
  | .heavy, "torso_style" => ["armored"]
  | .heavy, "arm_style" => ["robotic"]
  | .heavy, "legs" => ["wide"]
  | _, _ => []

/- ---------------- Helper lemmas ---------------- -/

theorem dictGet_eq_of_lookup (a : AttrMap) (k d v : String)
    (h : lookupKey a k = some v) : dictGet a k d = v := by
  unfold dictGet
  rw [h]
  rfl

theorem dictGet_eq_default (a : AttrMap) (k d : String)
    (h : lookupKey a k = none) : dictGet a k d = d := by
  unfold dictGet
  rw [h]
  rfl

theorem dictGet_congr (a1 a2 : AttrMap) (k d : String)
    (h : lookupKey a1 k = lookupKey a2 k) : dictGet a1 k d = dictGet a2 k d := by
  unfold dictGet
  rw [h]

theorem humanoidHead_congr (a1 a2 : AttrMap)
    (h : lookupKey a1 "head_style" = lookupKey a2 "head_style") :
    humanoidHead a1 = humanoidHead a2 := by
  unfold humanoidHead
  rw [dictGet_congr a1 a2 "head_style" "Oval" h]

theorem humanoidEyes_congr (a1 a2 : AttrMap)
    (h : lookupKey a1 "eye_color" = lookupKey a2 "eye_color") :
    humanoidEyes a1 = humanoidEyes a2 := by
  unfold humanoidEyes
  rw [dictGet_congr a1 a2 "eye_color" "black" h]

theorem humanoidTorso_congr (a1 a2 : AttrMap)
    (h : lookupKey a1 "torso_style" = lookupKey a2 "torso_style") :
    humanoidTorso a1 = humanoidTorso a2 := by
  unfold humanoidTorso
  rw [dictGet_congr a1 a2 "torso_style" "Standard" h]

theorem humanoidArms_congr (a1 a2 : AttrMap)
    (h : lookupKey a1 "arm_style" = lookupKey a2 "arm_style") :
    humanoidArms a1 = humanoidArms a2 := by
  unfold humanoidArms
  rw [dictGet_congr a1 a2 "arm_style" "Standard" h]

theorem humanoidLegs_congr (a1 a2 : AttrMap)
    (h : lookupKey a1 "legs" = lookupKey a2 "legs") :
    humanoidLegs a1 = humanoidLegs a2 := by
  unfold humanoidLegs
  rw [dictGet_congr a1 a2 "legs" "Standard" h]

theorem drawAntenna_congr (a1 a2 : AttrMap)
    (h : lookupKey a1 "antenna" = lookupKey a2 "antenna") :
    drawAntenna a1 = drawAntenna a2 := by
  unfold drawAntenna
  rw [dictGet_congr a1 a2 "antenna" "None" h]

theorem heavyHead_congr (a1 a2 : AttrMap)
    (h : lookupKey a1 "head_style" = lookupKey a2 "head_style") :
    heavyHead a1 = heavyHead a2 := by
  unfold heavyHead
  rw [dictGet_congr a1 a2 "head_style" "Rectangle" h]

theorem heavyTorso_congr (a1 a2 : AttrMap)
    (h : lookupKey a1 "torso_style" = lookupKey a2 "torso_style") :
    heavyTorso a1 = heavyTorso a2 := by
  unfold heavyTorso
  rw [dictGet_congr a1 a2 "torso_style" "Standard" h]

theorem heavyArms_congr (a1 a2 : AttrMap)
    (h : lookupKey a1 "arm_style" = lookupKey a2 "arm_style") :
    heavyArms a1 = heavyArms a2 := by
  unfold heavyArms
  rw [dictGet_congr a1 a2 "arm_style" "Standard" h]

theorem heavyLegs_congr (a1 a2 : AttrMap)
    (h : lookupKey a1 "legs" = lookupKey a2 "legs") :
    heavyLegs a1 = heavyLegs a2 := by
  unfold heavyLegs
  rw [dictGet_congr a1 a2 "legs" "Standard" h]

theorem humanoidHead_eq_of_ne (a1 a2 : AttrMap)
    (h1 : pyLower (dictGet a1 "head_style" "Oval") ≠ "square")
    (h2 : pyLower (dictGet a2 "head_style" "Oval") ≠ "square") :
    humanoidHead a1 = humanoidHead a2 := by
  unfold humanoidHead
  rw [if_neg h1, if_neg h2]

theorem humanoidTorso_eq_of_ne (a1 a2 : AttrMap)
    (h1 : pyLower (dictGet a1 "torso_style" "Standard") ≠ "muscular")
    (h2 : pyLower (dictGet a2 "torso_style" "Standard") ≠ "muscular") :
    humanoidTorso a1 = humanoidTorso a2 := by
  unfold humanoidTorso
  rw [if_neg h1, if_neg h2]

theorem humanoidArms_eq_of_ne (a1 a2 : AttrMap)
    (h1 : pyLower (dictGet a1 "arm_style" "Standard") ≠ "hydraulic")
    (h2 : pyLower (dictGet a2 "arm_style" "Standard") ≠ "hydraulic") :
    humanoidArms a1 = humanoidArms a2 := by
  unfold humanoidArms
  rw [if_neg h1, if_neg h2]

theorem humanoidLegs_eq_of_ne (a1 a2 : AttrMap)
    (h1 : pyLower (dictGet a1 "legs" "Standard") ≠ "wide")
    (h2 : pyLower (dictGet a2 "legs" "Standard") ≠ "wide") :
    humanoidLegs a1 = humanoidLegs a2 := by
  unfold humanoidLegs
  rw [if_neg h1, if_neg h2]

theorem heavyHead_eq_of_ne (a1 a2 : AttrMap)
    (h1 : pyLower (dictGet a1 "head_style" "Rectangle") ≠ "dome")
    (h2 : pyLower (dictGet a2 "head_style" "Rectangle") ≠ "dome") :
    heavyHead a1 = heavyHead a2 := by
  unfold heavyHead
  rw [if_neg h1, if_neg h2]

theorem heavyTorso_eq_of_ne (a1 a2 : AttrMap)
    (h1 : pyLower (dictGet a1 "torso_style" "Standard") ≠ "armored")
    (h2 : pyLower (dictGet a2 "torso_style" "Standard") ≠ "armored") :
    heavyTorso a1 = heavyTorso a2 := by
  unfold heavyTorso
  rw [if_neg h1, if_neg h2]

theorem heavyArms_eq_of_ne (a1 a2 : AttrMap)
    (h1 : pyLower (dictGet a1 "arm_style" "Standard") ≠ "robotic")
    (h2 : pyLower (dictGet a2 "arm_style" "Standard") ≠ "robotic") :
    heavyArms a1 = heavyArms a2 := by
  unfold heavyArms
  rw [if_neg h1, if_neg h2]

theorem heavyLegs_eq_of_ne (a1 a2 : AttrMap)
    (h1 : pyLower (dictGet a1 "legs" "Standard") ≠ "wide")
    (h2 : pyLower (dictGet a2 "legs" "Standard") ≠ "wide") :
    heavyLegs a1 = heavyLegs a2 := by
  unfold heavyLegs
  rw [if_neg h1, if_neg h2]

/- ---------------- Claim theorems ---------------- -/

/-- C1: the render operation is deterministic and reads no hidden state:
its output primitive sequence is a function of exactly the robot's variant,
component map and name, so two calls on equal inputs produce identical
sequences. -/
theorem draw_robot_deterministic (r1 r2 : Robot)
    (hv : r1.variant = r2.variant) (hc : r1.components = r2.components)
    (hn : r1.name = r2.name) : draw_robot r1 = draw_robot r2 := by
  cases r1
  cases r2
  dsimp at hv hc hn
  subst hv
  subst hc
  subst hn
  rfl

theorem draw_robot_deterministic_witness :
    draw_robot ⟨"Ada", .humanoid, []⟩ = draw_robot ⟨"Ada", .humanoid, []⟩ :=
  draw_robot_deterministic ⟨"Ada", .humanoid, []⟩ ⟨"Ada", .humanoid, []⟩ rfl rfl rfl

/-- C2: for every name, each variant factory's create operation (driving
the director's fixed buildHead, buildTorso, buildLimbs sequence) yields a
robot whose component map has exactly the keys "head", "torso", "limbs",
each bound to a non-empty string. -/
theorem construction_completeness (n : String) :
    ((HumanoidRobotFactory.create_robot n).components.map Prod.fst =
        ["head", "torso", "limbs"] ∧
      ∀ p ∈ (HumanoidRobotFactory.create_robot n).components, p.2 ≠ "") ∧
    ((HeavyRobotFactory.create_robot n).components.map Prod.fst =
        ["head", "torso", "limbs"] ∧
      ∀ p ∈ (HeavyRobotFactory.create_robot n).components, p.2 ≠ "") := by
  refine ⟨⟨rfl, ?_⟩, ⟨rfl, ?_⟩⟩
  · rw [show (HumanoidRobotFactory.create_robot n).components =
        [("head", "Smart Face"), ("torso", "Sleek Body"), ("limbs", "Agile Limbs")] from rfl]
    decide
  · rw [show (HeavyRobotFactory.create_robot n).components =
        [("head", "Armored Head"), ("torso", "Reinforced Frame"), ("limbs", "Robust Limbs")] from rfl]
    decide

/-- C5: the humanoid factory applied to "Ada" returns exactly the entity
named "Ada" of humanoid variant with the three smart-part attributes. -/
theorem humanoid_create_ada :
    HumanoidRobotFactory.create_robot "Ada" =
      ⟨"Ada", .humanoid,
        [("head", "Smart Face"), ("torso", "Sleek Body"), ("limbs", "Agile Limbs")]⟩ :=
  rfl

/-- C6: rendering an entity whose variant is neither humanoid nor heavy
always produces exactly one primitive, the diagnostic placeholder text
label, for every component map and name (the render function is total, so
no exception is raised). -/
theorem unknown_variant_placeholder (a : AttrMap) (n : String) :
    draw_robot ⟨n, .unknown, a⟩ =
      [Prim.text 200 200 "Unknown Robot Type" (some ("Helvetica", 16, false)) none] ∧
    (draw_robot ⟨n, .unknown, a⟩).length = 1 :=
  ⟨rfl, rfl⟩

/-- C7: when no last-created robot exists, the clone handler leaves the
robot collection and the last-robot reference unchanged and emits exactly
one logged event, "No robot to clone.". -/
theorem clone_no_source_noop (s : AppState) (h : s.last_robot = none) :
    (RobotFactoryApp.clone_robot s).robots = s.robots ∧
    (RobotFactoryApp.clone_robot s).last_robot = none ∧
    (RobotFactoryApp.clone_robot s).log = s.log ++ [logLine "No robot to clone."] := by
  simp [RobotFactoryApp.clone_robot, h]

theorem clone_no_source_noop_witness :
    (RobotFactoryApp.clone_robot ⟨[], none, []⟩).robots = ([] : List Robot) ∧
    (RobotFactoryApp.clone_robot ⟨[], none, []⟩).last_robot = none ∧
    (RobotFactoryApp.clone_robot ⟨[], none, []⟩).log =
      ([] : List String) ++ [logLine "No robot to clone."] :=
  clone_no_source_noop ⟨[], none, []⟩ rfl

/-- C8: each create handler names the new robot by the trimmed entry text
when that is non-empty, and otherwise by the generated default
Variant-(count+1), where count is the number of robots in the collection
before the creation. -/
theorem default_name_generation (s : AppState) (entry : String) :
    ((RobotFactoryApp.create_humanoid_robot s entry).last_robot).map Robot.name =
      some (if pyStrip entry = "" then "Humanoid-" ++ toString (s.robots.length + 1)
            else pyStrip entry) ∧
    ((RobotFactoryApp.create_heavy_robot s entry).last_robot).map Robot.name =
      some (if pyStrip entry = "" then "Heavy-" ++ toString (s.robots.length + 1)
            else pyStrip entry) :=
  ⟨rfl, rfl⟩

/-- C9: SingletonLogger is lazily-created process-wide singleton state: the
first construction allocates the instance and binds the callback passed to
it; every later construction returns that identical instance with its
original callback, ignoring the callback argument, and leaves the class
state unchanged. -/
theorem singleton_logger_unique {α : Type} (cb1 cb2 : Option α) (id1 id2 : Nat) :
    SingletonLogger.new (none : Option (LoggerInstance α)) id1 cb1 =
      (some (id1, cb1), (id1, cb1)) ∧
    (∀ i : LoggerInstance α, SingletonLogger.new (some i) id2 cb2 = (some i, i)) :=
  ⟨rfl, fun _ => rfl⟩

/-- C10: a humanoid render always contains the red chord-arc mouth
primitive, emitted immediately after the head and eye primitives and
immediately before the torso (and later) primitives; it is a fixed
primitive controlled by no attribute key. -/
theorem humanoid_mouth_always_between_eyes_and_torso (a : AttrMap) (n : String) :
    draw_robot ⟨n, .humanoid, a⟩ =
      (humanoidHead a ++ humanoidEyes a) ++
      [Prim.arc 180 70 220 90 200 140 (some .chord) (some "red") none none] ++
      (humanoidTorso a ++ humanoidArms a ++ humanoidLegs a ++ drawAntenna a ++
        [Prim.text 200 20 n (some ("Helvetica", 16, true)) (some "darkblue")]) := by
  simp [draw_robot, humanoidMouth, List.append_assoc]

/-- C3: cloning via the application handler appends "_clone" to the name,
keeps the variant, and gives the clone a deep, independent copy of the
component dictionary: the copy initially reads equal to the original, and
a subsequent attribute write through either robot leaves the dictionary
behind the other one unchanged. -/
theorem clone_independence (st : Store) (e : StoredRobot)
    (hv : e.compRef < st.maps.length) :
    (cloneStoredRobot st e).2.name = e.name ++ "_clone" ∧
    (cloneStoredRobot st e).2.variant = e.variant ∧
    (cloneStoredRobot st e).1.read (cloneStoredRobot st e).2.compRef = st.read e.compRef ∧
    (cloneStoredRobot st e).1.read e.compRef = st.read e.compRef ∧
    (∀ k v, (setComponent (cloneStoredRobot st e).1 (cloneStoredRobot st e).2 k v).read
        e.compRef = (cloneStoredRobot st e).1.read e.compRef) ∧
    (∀ k v, (setComponent (cloneStoredRobot st e).1 e k v).read
        (cloneStoredRobot st e).2.compRef =
        (cloneStoredRobot st e).1.read (cloneStoredRobot st e).2.compRef) := by
  have hne : st.maps.length ≠ e.compRef := (Nat.ne_of_lt hv).symm
  simp only [cloneStoredRobot, StoredRobot.clone, Store.alloc, Store.read, Store.write,
    setComponent]
  refine ⟨trivial, trivial, ?_, ?_, ?_, ?_⟩
  · simp
  · rw [List.getElem?_append_left hv]
  · intro k v
    rw [List.getElem?_set_ne hne]
  · intro k v
    rw [List.getElem?_set_ne (Ne.symm hne)]

theorem clone_independence_witness :
    (cloneStoredRobot ⟨[[("head", "Smart Face")]]⟩ ⟨"Ada", .humanoid, 0⟩).2.name =
        (⟨"Ada", .humanoid, 0⟩ : StoredRobot).name ++ "_clone" ∧
    (cloneStoredRobot ⟨[[("head", "Smart Face")]]⟩ ⟨"Ada", .humanoid, 0⟩).2.variant =
        (⟨"Ada", .humanoid, 0⟩ : StoredRobot).variant ∧
    (cloneStoredRobot ⟨[[("head", "Smart Face")]]⟩ ⟨"Ada", .humanoid, 0⟩).1.read
        (cloneStoredRobot ⟨[[("head", "Smart Face")]]⟩ ⟨"Ada", .humanoid, 0⟩).2.compRef =
      Store.read ⟨[[("head", "Smart Face")]]⟩ (⟨"Ada", .humanoid, 0⟩ : StoredRobot).compRef ∧
    (cloneStoredRobot ⟨[[("head", "Smart Face")]]⟩ ⟨"Ada", .humanoid, 0⟩).1.read
        (⟨"Ada", .humanoid, 0⟩ : StoredRobot).compRef =
      Store.read ⟨[[("head", "Smart Face")]]⟩ (⟨"Ada", .humanoid, 0⟩ : StoredRobot).compRef ∧
    (∀ k v,
      (setComponent (cloneStoredRobot ⟨[[("head", "Smart Face")]]⟩ ⟨"Ada", .humanoid, 0⟩).1
          (cloneStoredRobot ⟨[[("head", "Smart Face")]]⟩ ⟨"Ada", .humanoid, 0⟩).2 k v).read
        (⟨"Ada", .humanoid, 0⟩ : StoredRobot).compRef =
      (cloneStoredRobot ⟨[[("head", "Smart Face")]]⟩ ⟨"Ada", .humanoid, 0⟩).1.read
        (⟨"Ada", .humanoid, 0⟩ : StoredRobot).compRef) ∧
    (∀ k v,
      (setComponent (cloneStoredRobot ⟨[[("head", "Smart Face")]]⟩ ⟨"Ada", .humanoid, 0⟩).1
          ⟨"Ada", .humanoid, 0⟩ k v).read
        (cloneStoredRobot ⟨[[("head", "Smart Face")]]⟩ ⟨"Ada", .humanoid, 0⟩).2.compRef =
      (cloneStoredRobot ⟨[[("head", "Smart Face")]]⟩ ⟨"Ada", .humanoid, 0⟩).1.read
        (cloneStoredRobot ⟨[[("head", "Smart Face")]]⟩ ⟨"Ada", .humanoid, 0⟩).2.compRef) :=
  clone_independence ⟨[[("head", "Smart Face")]]⟩ ⟨"Ada", .humanoid, 0⟩ (by decide)

/-- C4 counterexample: the claim fails for the attribute key "antenna".
The value "Blinking" is outside the documented enumerated set (None,
Small, Large), yet rendering with it draws the antenna stalk and bulb,
which rendering with the key absent (default "None") does not, so the two
primitive sequences differ. -/
theorem render_fallback_counterexample :
    draw_robot ⟨"Ada", .humanoid, [("antenna", "Blinking")]⟩ ≠
      draw_robot ⟨"Ada", .humanoid, []⟩ := by
  decide

/-- C4 amended: for the four branch-selecting style keys (head_style,
torso_style, arm_style, legs), binding the key to any value whose
lowercasing is not the branch trigger for that variant renders exactly as
with the key absent, on top of an otherwise identical attribute map, and
never fails; this excludes the keys antenna (any value other than
case-insensitive "none" draws the antenna) and eye_color (the value is
used verbatim as a fill color). -/
theorem render_default_fallback (v : Variant) (n k s : String) (a1 a2 : AttrMap)
    (hk : k = "head_style" ∨ k = "torso_style" ∨ k = "arm_style" ∨ k = "legs")
    (hs : pyLower s ∉ styleTriggers v k)
    (hks : lookupKey a1 k = some s)
    (hka : lookupKey a2 k = none)
    (hother : ∀ k2, k2 ≠ k → lookupKey a1 k2 = lookupKey a2 k2) :
    draw_robot ⟨n, v, a1⟩ = draw_robot ⟨n, v, a2⟩ := by
  cases v with
  | unknown => rfl
  | humanoid =>
      rcases hk with rfl | rfl | rfl | rfl
      · have e1 := dictGet_eq_of_lookup a1 "head_style" "Oval" s hks
        have e2 := dictGet_eq_default a2 "head_style" "Oval" hka
        have hs1 : pyLower s ≠ "square" := by
          intro hcon
          exact hs (by rw [hcon]; decide)
        have hH := humanoidHead_eq_of_ne a1 a2 (by rw [e1]; exact hs1) (by rw [e2]; decide)
        have hE := humanoidEyes_congr a1 a2 (hother "eye_color" (by decide))
        have hT := humanoidTorso_congr a1 a2 (hother "torso_style" (by decide))
        have hA := humanoidArms_congr a1 a2 (hother "arm_style" (by decide))
        have hL := humanoidLegs_congr a1 a2 (hother "legs" (by decide))
        have hAn := drawAntenna_congr a1 a2 (hother "antenna" (by decide))
        simp only [draw_robot, hH, hE, hT, hA, hL, hAn]
      · have e1 := dictGet_eq_of_lookup a1 "torso_style" "Standard" s hks
        have e2 := dictGet_eq_default a2 "torso_style" "Standard" hka
        have hs1 : pyLower s ≠ "muscular" := by
          intro hcon
          exact hs (by rw [hcon]; decide)
        have hT := humanoidTorso_eq_of_ne a1 a2 (by rw [e1]; exact hs1) (by rw [e2]; decide)
        have hH := humanoidHead_congr a1 a2 (hother "head_style" (by decide))
        have hE := humanoidEyes_congr a1 a2 (hother "eye_color" (by decide))
        have hA := humanoidArms_congr a1 a2 (hother "arm_style" (by decide))
        have hL := humanoidLegs_congr a1 a2 (hother "legs" (by decide))
        have hAn := drawAntenna_congr a1 a2 (hother "antenna" (by decide))
        simp only [draw_robot, hH, hE, hT, hA, hL, hAn]
      · have e1 := dictGet_eq_of_lookup a1 "arm_style" "Standard" s hks
        have e2 := dictGet_eq_default a2 "arm_style" "Standard" hka
        have hs1 : pyLower s ≠ "hydraulic" := by
          intro hcon
          exact hs (by rw [hcon]; decide)
        have hA := humanoidArms_eq_of_ne a1 a2 (by rw [e1]; exact hs1) (by rw [e2]; decide)
        have hH := humanoidHead_congr a1 a2 (hother "head_style" (by decide))
        have hE := humanoidEyes_congr a1 a2 (hother "eye_color" (by decide))
        have hT := humanoidTorso_congr a1 a2 (hother "torso_style" (by decide))
        have hL := humanoidLegs_congr a1 a2 (hother "legs" (by decide))
        have hAn := drawAntenna_congr a1 a2 (hother "antenna" (by decide))
        simp only [draw_robot, hH, hE, hT, hA, hL, hAn]
      · have e1 := dictGet_eq_of_lookup a1 "legs" "Standard" s hks
        have e2 := dictGet_eq_default a2 "legs" "Standard" hka
        have hs1 : pyLower s ≠ "wide" := by
          intro hcon
          exact hs (by rw [hcon]; decide)
        have hL := humanoidLegs_eq_of_ne a1 a2 (by rw [e1]; exact hs1) (by rw [e2]; decide)
        have hH := humanoidHead_congr a1 a2 (hother "head_style" (by decide))
        have hE := humanoidEyes_congr a1 a2 (hother "eye_color" (by decide))
        have hT := humanoidTorso_congr a1 a2 (hother "torso_style" (by decide))
        have hA := humanoidArms_congr a1 a2 (hother "arm_style" (by decide))
        have hAn := drawAntenna_congr a1 a2 (hother "antenna" (by decide))
        simp only [draw_robot, hH, hE, hT, hA, hL, hAn]
  | heavy =>
      rcases hk with rfl | rfl | rfl | rfl
      · have e1 := dictGet_eq_of_lookup a1 "head_style" "Rectangle" s hks
        have e2 := dictGet_eq_default a2 "head_style" "Rectangle" hka
        have hs1 : pyLower s ≠ "dome" := by
          intro hcon
          exact hs (by rw [hcon]; decide)
        have hH := heavyHead_eq_of_ne a1 a2 (by rw [e1]; exact hs1) (by rw [e2]; decide)
        have hT := heavyTorso_congr a1 a2 (hother "torso_style" (by decide))
        have hA := heavyArms_congr a1 a2 (hother "arm_style" (by decide))
        have hL := heavyLegs_congr a1 a2 (hother "legs" (by decide))
        have hAn := drawAntenna_congr a1 a2 (hother "antenna" (by decide))
        simp only [draw_robot, hH, hT, hA, hL, hAn]
      · have e1 := dictGet_eq_of_lookup a1 "torso_style" "Standard" s hks
        have e2 := dictGet_eq_default a2 "torso_style" "Standard" hka
        have hs1 : pyLower s ≠ "armored" := by
          intro hcon
          exact hs (by rw [hcon]; decide)
        have hT := heavyTorso_eq_of_ne a1 a2 (by rw [e1]; exact hs1) (by rw [e2]; decide)
        have hH := heavyHead_congr a1 a2 (hother "head_style" (by decide))
        have hA := heavyArms_congr a1 a2 (hother "arm_style" (by decide))
        have hL := heavyLegs_congr a1 a2 (hother "legs" (by decide))
        have hAn := drawAntenna_congr a1 a2 (hother "antenna" (by decide))
        simp only [draw_robot, hH, hT, hA, hL, hAn]
      · have e1 := dictGet_eq_of_lookup a1 "arm_style" "Standard" s hks
        have e2 := dictGet_eq_default a2 "arm_style" "Standard" hka
        have hs1 : pyLower s ≠ "robotic" := by
          intro hcon
          exact hs (by rw [hcon]; decide)
        have hA := heavyArms_eq_of_ne a1 a2 (by rw [e1]; exact hs1) (by rw [e2]; decide)
        have hH := heavyHead_congr a1 a2 (hother "head_style" (by decide))
        have hT := heavyTorso_congr a1 a2 (hother "torso_style" (by decide))
        have hL := heavyLegs_congr a1 a2 (hother "legs" (by decide))
        have hAn := drawAntenna_congr a1 a2 (hother "antenna" (by decide))
        simp only [draw_robot, hH, hT, hA, hL, hAn]
      · have e1 := dictGet_eq_of_lookup a1 "legs" "Standard" s hks
        have e2 := dictGet_eq_default a2 "legs" "Standard" hka
        have hs1 : pyLower s ≠ "wide" := by
          intro hcon
          exact hs (by rw [hcon]; decide)
        have hL := heavyLegs_eq_of_ne a1 a2 (by rw [e1]; exact hs1) (by rw [e2]; decide)
        have hH := heavyHead_congr a1 a2 (hother "head_style" (by decide))
        have hT := heavyTorso_congr a1 a2 (hother "torso_style" (by decide))
        have hA := heavyArms_congr a1 a2 (hother "arm_style" (by decide))
        have hAn := drawAntenna_congr a1 a2 (hother "antenna" (by decide))
        simp only [draw_robot, hH, hT, hA, hL, hAn]

theorem render_default_fallback_witness :
    draw_robot ⟨"Ada", .humanoid, [("head_style", "Triangle")]⟩ =
      draw_robot ⟨"Ada", .humanoid, []⟩ :=
  render_default_fallback .humanoid "Ada" "head_style" "Triangle"
    [("head_style", "Triangle")] []
    (Or.inl rfl) (by decide) rfl rfl
    (by
      intro k2 h2
      rw [show lookupKey [("head_style", "Triangle")] k2 =
            if "head_style" = k2 then some "Triangle" else none from rfl,
        if_neg fun he => h2 he.symm]
      rfl)
